import Mathlib

set_option maxHeartbeats 1000000
set_option maxRecDepth 8000

/-!
Shallow embedding of the finance-tracker server (`src/server.js` together with
the Mongoose schema `src/models/Transaction.js`) and proofs about its
dashboard aggregation, filtering, summary, CRUD and CSV-export logic.

Conventions of the embedding:
* JS `Date` values are modelled at day granularity by `FinTrack.CalDate`
  (the modelled code only ever compares dates and decomposes them into
  year/month/day).  The JS `Date`-constructor normalization of out-of-range
  month indices and day numbers is modelled faithfully through day
  arithmetic on the proleptic Gregorian calendar.
* JS numbers holding currency amounts are modelled by `ℚ`; all amounts in
  the claims are exact in binary floating point at these magnitudes, so the
  rational model agrees with the JS arithmetic on every value considered.
* MongoDB/Mongoose queries are modelled over an in-memory list of stored
  transactions: `find` is `List.filter` against the query predicate, the
  `$group`/`$sort` aggregation pipeline is an explicit group-sum-sort, and
  `findOneAndUpdate`/`findOneAndDelete` act on the first matching record.
-/

namespace FinTrack

/-- A calendar date (proleptic Gregorian), at day granularity. -/
structure CalDate where
  year : Int
  month : Int
  day : Int
deriving DecidableEq, Repr

/-- Days since 1970-01-01 of the civil date `(y, m, d)` (Gregorian), with
`m` a 1-based month.  The day component `d` enters linearly, so values of
`d` outside `1 .. daysInMonth` denote the correspondingly shifted day,
exactly as in the `MakeDay` normalization used by JS `Date`. -/
def daysFromCivil (y m d : Int) : Int :=
  let y2 := if m ≤ 2 then y - 1 else y
  let era := Int.fdiv y2 400
  let yoe := y2 - era * 400
  let mp := Int.emod (m + 9) 12
  let doy := Int.ediv (153 * mp + 2) 5 + d - 1
  let doe := yoe * 365 + Int.ediv yoe 4 - Int.ediv yoe 100 + doy
  era * 146097 + doe - 719468

/-- Inverse of `daysFromCivil`: the canonical civil date of a day number. -/
def civilFromDays (z : Int) : CalDate :=
  let z2 := z + 719468
  let era := Int.fdiv z2 146097
  let doe := z2 - era * 146097
  let yoe := Int.ediv (doe - Int.ediv doe 1460 + Int.ediv doe 36524 - Int.ediv doe 146096) 365
  let y := yoe + era * 400
  let doy := doe - (365 * yoe + Int.ediv yoe 4 - Int.ediv yoe 100)
  let mp := Int.ediv (5 * doy + 2) 153
  let d := doy - Int.ediv (153 * mp + 2) 5 + 1
  let m := mp + (if mp < 10 then 3 else -9)
  ⟨y + (if m ≤ 2 then 1 else 0), m, d⟩

/-- JS date-component normalization (ECMAScript `MakeDay`): a 0-based month
index `mIdx` is folded into the year, then the day number `d` (possibly `0`,
negative, or past the end of the month) is resolved by day arithmetic. -/
def jsMakeDateRaw (y mIdx d : Int) : CalDate :=
  let ym := y * 12 + mIdx
  civilFromDays (daysFromCivil (Int.fdiv ym 12) (Int.emod ym 12 + 1) d)

/-- JS `new Date(y, mIdx, d)`: as `jsMakeDateRaw`, except that year values
`0 .. 99` are interpreted as `1900 + y`. -/
def jsNewDate (y mIdx d : Int) : CalDate :=
  jsMakeDateRaw (if 0 ≤ y ∧ y ≤ 99 then y + 1900 else y) mIdx d

/-- JS `date.setMonth(mIdx)` (day granularity): keeps year and day-of-month,
normalizing overflow as `MakeDay` does. -/
def jsSetMonth (t : CalDate) (mIdx : Int) : CalDate :=
  jsMakeDateRaw t.year mIdx t.day

/-- JS `date.setDate(d)` (day granularity). -/
def jsSetDate (t : CalDate) (d : Int) : CalDate :=
  jsMakeDateRaw t.year (t.month - 1) d

/-- Day number of a canonical date; MongoDB compares `Date` values by their
timestamp, which at day granularity is this day number. -/
def rataDie (t : CalDate) : Int :=
  daysFromCivil t.year t.month t.day

/-- The order MongoDB uses on the stored `date` field (`$gte`/`$lte`). -/
def dateLe (a b : CalDate) : Bool :=
  decide (rataDie a ≤ rataDie b)

-- Sanity checks of the date model.

/-- Value of a list of decimal digit characters, most significant first. -/
def digitsToNat : List Char → Nat → Nat
  | [], acc => acc
  | c :: cs, acc => digitsToNat cs (acc * 10 + (c.toNat - 48))

/-- JS `parseInt` digit scan: the longest leading run of decimal digits, or
`none` (`NaN`) when there is none. -/
def parseLeadingDigits (cs : List Char) : Option Int :=
  let ds := cs.takeWhile (·.isDigit)
  if ds = [] then none else some (digitsToNat ds 0)

/-- Strip leading and trailing whitespace from a character list (the
character-level mirror of `String.trim`). -/
def trimChars (cs : List Char) : List Char :=
  ((cs.dropWhile (·.isWhitespace)).reverse.dropWhile (·.isWhitespace)).reverse

/-- JS `parseInt(x, 10)` where `x` is a string or `undefined` (`none`).
Leading whitespace is skipped and an optional sign is honoured; a string
with no leading digits — and `undefined` — give `NaN` (`none`).  (Radix
prefixes and fractional forms never reach this code path.) -/
def jsParseInt : Option String → Option Int
  | none => none
  | some s =>
    match trimChars s.data with
    | '-' :: cs => (parseLeadingDigits cs).map (fun n => -n)
    | '+' :: cs => parseLeadingDigits cs
    | cs => parseLeadingDigits cs

/-- JS `Number(s)` coercion as the `Date` constructor applies it to its year
argument, modelled on integer-literal strings: the empty (or all-blank)
string is `0`, an optionally signed digit string is its value, and anything
else is `NaN` (`none`).  The filter route only ever passes `YYYY` tokens
here, for which this is exact. -/
def jsNumberOfString (s : String) : Option Int :=
  match trimChars s.data with
  | [] => some 0
  | '-' :: cs => if cs ≠ [] ∧ cs.all (·.isDigit) then some (-(digitsToNat cs 0 : Int)) else none
  | '+' :: cs => if cs ≠ [] ∧ cs.all (·.isDigit) then some (digitsToNat cs 0) else none
  | cs => if cs.all (·.isDigit) then some (digitsToNat cs 0) else none

/-- Split a character list at every occurrence of `sep` (the character-level
mirror of `String.splitOn` for a single-character separator, which is how
`queryParams.month.split('-')` behaves). -/
def splitOnChar (sep : Char) : List Char → List (List Char)
  | [] => [[]]
  | c :: cs =>
    if c = sep then [] :: splitOnChar sep cs
    else
      match splitOnChar sep cs with
      | [] => [[c]]
      | h :: t => (c :: h) :: t

/-- A stored transaction document (`src/models/Transaction.js`): Mongoose
`_id` is modelled by a numeric `id`, `timestamps: true` adds `createdAt`
(modelled at day granularity, which is all the server ever reads of it). -/
structure StoredTx where
  id : Nat
  userId : String
  type : String
  category : String
  amount : ℚ
  note : String
  date : CalDate
  createdAt : CalDate
deriving DecidableEq, Repr

/-- Result shape of `calculateSummary` in `src/server.js`. -/
structure Summary where
  income : ℚ
  expense : ℚ
  net : ℚ
deriving DecidableEq, Repr

/-- `calculateSummary` (`src/server.js` lines 67–76): filter by type, then
`reduce((sum, t) => sum + t.amount, 0)` over each filtered list. -/
def calculateSummary (transactions : List StoredTx) : Summary :=
  let income := (transactions.filter (fun t => t.type == "income")).foldl
    (fun sum t => sum + t.amount) 0
  let expense := (transactions.filter (fun t => t.type == "expense")).foldl
    (fun sum t => sum + t.amount) 0
  { income := income, expense := expense, net := income - expense }

/-- The Mongoose query object built by `GET /` (`src/server.js` lines
176–195): always `userId`, optionally a `date: {$gte, $lte}` range,
optionally an exact `category`. -/
structure Filter where
  userId : String
  dateRange : Option (CalDate × CalDate)
  category : Option String
deriving DecidableEq, Repr

/-- The category part of the filter: absent or `"all"` adds no constraint
(`src/server.js` lines 193–195). -/
def catConstraint : Option String → Option String
  | none => none
  | some c => if c = "all" then none else some c

/-- The month part of the filter (`src/server.js` lines 181–190): for a
present, non-`"all"` token, split on `'-'`, and build
`startDate = new Date(year, parseInt(month) - 1, 1)` and
`endDate = new Date(year, parseInt(month), 0)`.  When either `Date`
argument is `NaN` the constructed dates are invalid and the subsequent
`Transaction.find` cast throws, which the route's `catch` turns into a 500
response; that error path is `Except.error ()`. -/
def monthRange : Option String → Except Unit (Option (CalDate × CalDate))
  | none => Except.ok none
  | some tok =>
    if tok = "all" then Except.ok none
    else
      let parts := splitOnChar '-' tok.data
      let yearStr := parts.headD []
      let monthTok := (parts.get? 1).map (fun cs => String.mk cs)
      match jsNumberOfString (String.mk yearStr), jsParseInt monthTok with
      | some y, some m =>
        Except.ok (some (jsNewDate y (m - 1) 1, jsNewDate y m 0))
      | _, _ => Except.error ()

/-- The whole filter object built by `GET /` for the authenticated user and
the raw `month` / `category` query parameters (absent = `none`). -/
def buildFilter (userId : String) (month category : Option String) :
    Except Unit Filter :=
  match monthRange month with
  | Except.error e => Except.error e
  | Except.ok dr =>
    Except.ok { userId := userId, dateRange := dr, category := catConstraint category }

/-- Semantics MongoDB gives the filter object: conjunction of `userId`
equality, the inclusive `$gte`/`$lte` date range when present, and category
equality when present. -/
def matchesFilter (f : Filter) (t : StoredTx) : Bool :=
  t.userId == f.userId
    && (match f.dateRange with
        | none => true
        | some (s, e) => dateLe s t.date && dateLe t.date e)
    && (match f.category with
        | none => true
        | some c => t.category == c)

/-- `Transaction.find(filter)`: every stored document matching the filter. -/
def findTx (store : List StoredTx) (f : Filter) : List StoredTx :=
  store.filter (matchesFilter f)

/-- `twelveMonthsAgo` (`src/server.js` lines 203–205): from "now", first
`setMonth(getMonth() - 11)`, then `setDate(1)` — in that order. -/
def twelveMonthsAgo (now : CalDate) : CalDate :=
  jsSetDate (jsSetMonth now ((now.month - 1) - 11)) 1

/-- The `sinceDate` contract as the spec words it: the first calendar day of
the month that is 11 months before the current month.  Stated independently
of the source as the refinement comparator for the aggregation window. -/
def specSinceDate (now : CalDate) : CalDate :=
  let ym := now.year * 12 + (now.month - 1) - 11
  ⟨Int.fdiv ym 12, Int.emod ym 12 + 1, 1⟩

/-- The `$group` key of the aggregation: `{$year: "$date", $month: "$date"}`. -/
def txKey (t : StoredTx) : Int × Int :=
  (t.date.year, t.date.month)

/-- The distinct group keys of a document list (a `$group` stage produces
one output document per distinct key). -/
def dedupKeys : List (Int × Int) → List (Int × Int)
  | [] => []
  | k :: ks => if ks.contains k then dedupKeys ks else k :: dedupKeys ks

/-- The `$sort: {"_id.year": 1, "_id.month": 1}` order on group keys. -/
def keyLe (a b : Int × Int) : Bool :=
  decide (a.1 < b.1) || (a.1 == b.1 && decide (a.2 ≤ b.2))

def insertKey (k : Int × Int) : List (Int × Int) → List (Int × Int)
  | [] => [k]
  | x :: xs => if keyLe k x then k :: x :: xs else x :: insertKey k xs

def sortKeys : List (Int × Int) → List (Int × Int)
  | [] => []
  | x :: xs => insertKey x (sortKeys xs)

/-- One output row of the aggregation pipeline (`src/server.js` lines
207–233): the `_id` group key with the two conditional sums. -/
structure MRow where
  idYear : Int
  idMonth : Int
  totalIncome : ℚ
  totalExpense : ℚ
deriving DecidableEq, Repr

/-- The aggregation pipeline of `GET /`: `$match` on `userId` and
`date: {$gte: since}`, `$group` by `(year, month)` with
`$sum: {$cond: [type == income, amount, 0]}` (and likewise for expense),
then `$sort` ascending by `(year, month)`. -/
def groupRows (matched : List StoredTx) : List MRow :=
  let keys := sortKeys (dedupKeys (matched.map txKey))
  keys.map (fun k =>
    let grp := matched.filter (fun t => txKey t == k)
    { idYear := k.1
      idMonth := k.2
      totalIncome := grp.foldl (fun s t => s + (if t.type == "income" then t.amount else 0)) 0
      totalExpense := grp.foldl (fun s t => s + (if t.type == "expense" then t.amount else 0)) 0 })

/-- A BSON value as far as the `$match` stage compares them: the schema's
`userId` field holds a String, while the pipeline's query value is an
ObjectId.  BSON equality never identifies values of different types, which
the derived equality of this sum type captures. -/
inductive BsonValue where
  | str (s : String)
  | oid (hex : String)
deriving DecidableEq, Repr

def isHexChar (c : Char) : Bool :=
  c.isDigit || (decide ('a' ≤ c) && decide (c ≤ 'f'))
    || (decide ('A' ≤ c) && decide (c ≤ 'F'))

/-- `new mongoose.Types.ObjectId(s)`: a 24-character hex string constructs
an ObjectId value; any other string throws (which the dashboard route's
`catch` turns into a 500 response).  The session owner ids considered here
are either 24-hex or clearly invalid, so the legacy 12-byte-string form of
old bson versions never comes into play. -/
def objectIdOfString (s : String) : Option BsonValue :=
  if s.data.length = 24 ∧ s.data.all isHexChar then some (BsonValue.oid s) else none

/-- The `monthlyData` aggregation of `GET /` (`src/server.js` lines
207–233), including line 210's `userId: new mongoose.Types.ObjectId(userId)`
cast: the `$match` compares that ObjectId against the stored **String**
`userId` field (aggregation pipelines are not cast by Mongoose), so a
matching document would need BSON equality between a String and an
ObjectId; an uncastable owner string makes the route throw
(`Except.error ()`). -/
def monthlyData (store : List StoredTx) (userId : String) (since : CalDate) :
    Except Unit (List MRow) :=
  match objectIdOfString userId with
  | none => Except.error ()
  | some v =>
    Except.ok (groupRows
      (store.filter (fun t => BsonValue.str t.userId == v && dateLe since t.date)))

/-- `en-US` short month names, as produced by `toLocaleString`. -/
def monthShort (m : Int) : String :=
  if m = 1 then "Jan" else if m = 2 then "Feb" else if m = 3 then "Mar"
  else if m = 4 then "Apr" else if m = 5 then "May" else if m = 6 then "Jun"
  else if m = 7 then "Jul" else if m = 8 then "Aug" else if m = 9 then "Sep"
  else if m = 10 then "Oct" else if m = 11 then "Nov" else if m = 12 then "Dec"
  else ""

/-- `new Date(year, month - 1).toLocaleString('en-US', {month: 'short',
year: 'numeric'})`, e.g. `"Jan 2024"`. -/
def monthLabel (y m : Int) : String :=
  let d := jsNewDate y (m - 1) 1
  monthShort d.month ++ " " ++ toString d.year

/-- JS `String.prototype.padStart(2, '0')`. -/
def padTwoStart (s : String) : String :=
  if s.length = 0 then "00" else if s.length = 1 then "0" ++ s else s

/-- One entry of the `monthlyBreakdown` array handed to the view
(`src/server.js` lines 236–245). -/
structure BRow where
  label : String
  income : ℚ
  expense : ℚ
  net : ℚ
  monthKey : String
deriving DecidableEq, Repr

/-- The per-row formatting `src/server.js` lines 236–245 apply to the
aggregation output. -/
def formatBreakdown (rows : List MRow) : List BRow :=
  rows.map (fun r =>
    { label := monthLabel r.idYear r.idMonth
      income := r.totalIncome
      expense := r.totalExpense
      net := r.totalIncome - r.totalExpense
      monthKey := toString r.idYear ++ "-" ++ padTwoStart (toString r.idMonth) })

/-- The `monthlyBreakdown` computed by the dashboard route for the
authenticated user `userId` when the current date is `now`: the aggregation
over the trailing window starting at `twelveMonthsAgo now` — including its
ObjectId cast of the owner — formatted for the chart and list. -/
def monthlyBreakdown (store : List StoredTx) (userId : String) (now : CalDate) :
    Except Unit (List BRow) :=
  match monthlyData store userId (twelveMonthsAgo now) with
  | Except.error e => Except.error e
  | Except.ok rows => Except.ok (formatBreakdown rows)

/-- Modelled from the spec: the monthly breakdown that §4.2's
`aggregateMonthly(owner, sinceDate)` (one owner-scoped row per (year,
month) over `occurredOn ≥ sinceDate`, conditional income/expense sums,
ascending order) together with §4.3's formatting contract describe — the
behavior the route's aggregation was written to have, with the owner
compared as the plain id it is stored as. -/
def specMonthlyBreakdown (store : List StoredTx) (owner : String) (now : CalDate) :
    List BRow :=
  formatBreakdown (groupRows
    (store.filter (fun t => t.userId == owner && dateLe (specSinceDate now) t.date)))

/-- The three transactions of end-to-end scenario 1, owned by `"U"`. -/
def txScenario1 : List StoredTx :=
  [ { id := 1, userId := "U", type := "income", category := "Salary",
      amount := 500, note := "", date := ⟨2024, 1, 15⟩, createdAt := ⟨2024, 1, 15⟩ }
  , { id := 2, userId := "U", type := "expense", category := "Food",
      amount := 200, note := "", date := ⟨2024, 1, 20⟩, createdAt := ⟨2024, 1, 20⟩ }
  , { id := 3, userId := "U", type := "expense", category := "Food",
      amount := 50, note := "", date := ⟨2024, 2, 1⟩, createdAt := ⟨2024, 2, 1⟩ } ]

/-- A syntactically valid ObjectId-style owner id (24 hex characters). -/
def hexOwner : String := "0123456789abcdef01234567"

/-- The scenario-1 transactions re-owned by `hexOwner`, to show the
aggregation stays empty even when the owner id casts to an ObjectId. -/
def txScenario1Hex : List StoredTx :=
  txScenario1.map (fun t => { t with userId := hexOwner })

/-- The update document built by `POST /update/:id` (`src/server.js` lines
327–340) from the request body: the five writable fields. -/
structure UpdateData where
  type : String
  category : String
  amount : ℚ
  note : String
  date : CalDate
deriving DecidableEq, Repr

/-- Applying the update document to a stored transaction: Mongoose `$set`s
the five fields; `userId`, `_id` and `createdAt` are untouched. -/
def applyUpdate (u : UpdateData) (t : StoredTx) : StoredTx :=
  { t with type := u.type, category := u.category, amount := u.amount,
           note := u.note, date := u.date }

/-- `Transaction.findOneAndUpdate({_id: id, userId}, upd)` with default
options: the first document matching both `_id` and `userId` gets the five
fields overwritten — Mongoose runs **no schema validators** on this path
(`runValidators` defaults to `false`), only casts — and `none` is returned
when nothing matches (the route then redirects with "Update failed."). -/
def updateList : List StoredTx → Nat → String → UpdateData → Option (List StoredTx)
  | [], _, _, _ => none
  | t :: ts, id, userId, u =>
    if t.id == id && t.userId == userId then some (applyUpdate u t :: ts)
    else (updateList ts id userId u).map (fun ts2 => t :: ts2)

/-- `Transaction.findOneAndDelete({_id: id, userId})`: removes the first
document matching both `_id` and `userId`; `none` when nothing matches. -/
def deleteList : List StoredTx → Nat → String → Option (List StoredTx)
  | [], _, _ => none
  | t :: ts, id, userId =>
    if t.id == id && t.userId == userId then some ts
    else (deleteList ts id userId).map (fun ts2 => t :: ts2)

/-- The caller-supplied fields of a new `Transaction` document; `none` is an
absent (`undefined`) field. -/
structure TxInput where
  userId : Option String
  type : Option String
  category : Option String
  amount : Option ℚ
  note : Option String
  date : Option CalDate
deriving DecidableEq, Repr

/-- A Mongoose document after construction but before validation: schema
defaults have been applied (`userId` defaults to `"default_user"`, `note`
defaults to `""` and is trimmed). -/
structure TxDoc where
  userId : Option String
  type : Option String
  category : Option String
  amount : Option ℚ
  note : String
  date : Option CalDate
deriving DecidableEq, Repr

/-- `new Transaction(input)`: apply the schema defaults of
`src/models/Transaction.js` (defaults are applied at construction, before
any validation runs). -/
def buildDoc (i : TxInput) : TxDoc :=
  { userId := match i.userId with | some u => some u | none => some "default_user"
    type := i.type
    category := i.category
    amount := i.amount
    note := String.mk (trimChars (i.note.getD "").data)
    date := i.date }

/-- The schema validators of `src/models/Transaction.js`, run by
`document.save()`: `required` on `userId`/`type`/`category`/`amount`/`date`
(for strings this also rejects the empty string), `enum: ['income',
'expense']` on `type`, and `min: 0.01` on `amount`. -/
def validateDoc (d : TxDoc) : Bool :=
  (match d.userId with | some s => !(s == "") | none => false)
    && (match d.type with | some s => s == "income" || s == "expense" | none => false)
    && (match d.category with | some s => !(s == "") | none => false)
    && (match d.amount with | some a => decide ((1 : ℚ)/100 ≤ a) | none => false)
    && d.date.isSome

/-- View of a stored transaction as a document, for re-checking the schema
invariants on stored data. -/
def docOfStored (t : StoredTx) : TxDoc :=
  { userId := some t.userId, type := some t.type, category := some t.category,
    amount := some t.amount, note := t.note, date := some t.date }

/-- `document.save()` on a freshly built document: validators run, and on
success the document is persisted with a fresh id and `createdAt` set by
`timestamps: true`; a validation failure rejects the save (the `/add` route
reports the error and persists nothing). -/
def saveTx (store : List StoredTx) (newId : Nat) (d : TxDoc) (creationDate : CalDate) :
    Except String (List StoredTx) :=
  if validateDoc d then
    Except.ok (store ++
      [{ id := newId
         userId := d.userId.getD ""
         type := d.type.getD ""
         category := d.category.getD ""
         amount := d.amount.getD 0
         note := d.note
         date := d.date.getD ⟨1970, 1, 1⟩
         createdAt := creationDate }])
  else Except.error "ValidationError"

/-- `s.replace(/"/g, '""')` (`src/server.js` lines 380 and 382): every
double-quote character is doubled. -/
def escQ (s : String) : String :=
  String.mk (s.data.foldr
    (fun c acc => if c = '"' then '"' :: '"' :: acc else c :: acc) [])

/-- A CSV field wrapped in double quotes with internal quotes doubled. -/
def quoteField (s : String) : String :=
  "\"" ++ escQ s ++ "\""

/-- Two decimal digit characters for a value `0 ≤ n < 100`. -/
def pad2 (n : Nat) : String :=
  String.mk [Nat.digitChar (n / 10), Nat.digitChar (n % 10)]

/-- JS `amount.toFixed(2)`: sign, integer part, `'.'`, and exactly two
fraction digits, rounding to the nearest hundredth (half away from zero).
On amounts that are whole cents — every value this development evaluates —
this is exactly the JS result. -/
def toFixed2 (a : ℚ) : String :=
  let mag := if a < 0 then -a else a
  let c := (Rat.floor (mag * 100 + 1/2)).toNat
  (if a < 0 then "-" else "") ++ toString (c / 100) ++ "." ++ pad2 (c % 100)

/-- `formatters.date` (`src/server.js` line 81):
`toLocaleDateString('en-US', {year: 'numeric', month: 'short', day:
'numeric'})`, e.g. `"Jan 15, 2024"`. -/
def fmtDate (d : CalDate) : String :=
  monthShort d.month ++ " " ++ toString d.day ++ ", " ++ toString d.year

/-- `t.type.toUpperCase()` for the ASCII type strings. -/
def upperChars (s : String) : String :=
  String.mk (s.data.map Char.toUpper)

/-- One CSV data row (`src/server.js` lines 376–385): the six fields joined
with `','` and a trailing `'\n'`. -/
def csvRow (t : StoredTx) : String :=
  fmtDate t.date ++ "," ++ upperChars t.type ++ "," ++ quoteField t.category
    ++ "," ++ toFixed2 t.amount ++ "," ++ quoteField t.note ++ ","
    ++ fmtDate t.createdAt ++ "\n"

/-- The CSV text: starting from the literal header line, append one row per
transaction (`csv += ...` in a `forEach` is a left fold). -/
def csvExport (ts : List StoredTx) : String :=
  ts.foldl (fun csv t => csv ++ csvRow t) "Date,Type,Category,Amount,Note,Created At\n"

/-- Outcome of `GET /export/csv`: either a CSV attachment or a redirect to
the dashboard carrying an error message. -/
inductive ExportResult where
  | csvFile (content : String)
  | redirect (errorMsg : String)
deriving DecidableEq, Repr

/-- Ascending stable insertion by `date` (`.sort({date: 1})`). -/
def insertByDate (t : StoredTx) : List StoredTx → List StoredTx
  | [] => [t]
  | x :: xs => if dateLe t.date x.date then t :: x :: xs else x :: insertByDate t xs

def sortByDateAsc : List StoredTx → List StoredTx
  | [] => []
  | x :: xs => insertByDate x (sortByDateAsc xs)

/-- `GET /export/csv` (`src/server.js` lines 364–389): fetch the owner's
transactions sorted ascending by date; with zero transactions redirect with
"No transactions to export.", otherwise serve the CSV built by
`csvExport`. -/
def exportCsvRoute (store : List StoredTx) (userId : String) : ExportResult :=
  let ts := sortByDateAsc (store.filter (fun t => t.userId == userId))
  if ts.isEmpty then ExportResult.redirect "No transactions to export."
  else ExportResult.csvFile (csvExport ts)

/-- Concatenation of the CSV rows of a transaction list, in order. -/
def concatRows : List StoredTx → String
  | [] => ""
  | t :: ts => csvRow t ++ concatRows ts

/-- A stored transaction of owner `"A"`, used to instantiate the ownership
isolation and empty-export statements. -/
def txOwnerA : StoredTx :=
  { id := 21, userId := "A", type := "income", category := "Salary",
    amount := 100, note := "", date := ⟨2024, 4, 2⟩, createdAt := ⟨2024, 4, 2⟩ }

/-- A valid stored transaction of owner `"U"` with id 7, the target of the
update in the C6 scenario. -/
def txBeforeUpdate : StoredTx :=
  { id := 7, userId := "U", type := "income", category := "Salary",
    amount := 500, note := "", date := ⟨2024, 1, 15⟩, createdAt := ⟨2024, 1, 15⟩ }

/-- The C6 update body: `type` outside the enum and a negative amount. -/
def updInvalid : UpdateData :=
  { type := "party", category := "Salary", amount := -5, note := "",
    date := ⟨2024, 1, 15⟩ }

-- ==================================================================
-- Model sanity checks
-- ==================================================================

example : jsNewDate 2024 2 1 = ⟨2024, 3, 1⟩ := by decide

example : jsNewDate 2024 3 0 = ⟨2024, 3, 31⟩ := by decide

example : jsNewDate 2024 2 0 = ⟨2024, 2, 29⟩ := by decide

example : jsNewDate 2023 2 0 = ⟨2023, 2, 28⟩ := by decide

example : jsNewDate 2024 12 1 = ⟨2025, 1, 1⟩ := by decide

example : jsNewDate 2024 13 0 = ⟨2025, 1, 31⟩ := by decide

example : jsMakeDateRaw 2024 (-10) 10 = ⟨2023, 3, 10⟩ := by decide

example : jsMakeDateRaw 2023 5 31 = ⟨2023, 7, 1⟩ := by decide

example : dateLe ⟨2023, 3, 1⟩ ⟨2024, 1, 15⟩ = true := by decide

example : dateLe ⟨2024, 4, 1⟩ ⟨2024, 3, 31⟩ = false := by decide

example : jsNumberOfString "2024" = some 2024 := by decide

example : jsNumberOfString "garbage" = none := by decide

example : jsParseInt (some "03") = some 3 := by decide

example : jsParseInt (some "13") = some 13 := by decide

example : jsParseInt none = none := by decide

example : splitOnChar '-' "2024-03".data = ["2024".data, "03".data] := by decide

example : splitOnChar '-' "garbage".data = ["garbage".data] := by decide

example : monthRange (some "2024-03") =
    Except.ok (some (⟨2024, 3, 1⟩, ⟨2024, 3, 31⟩)) := rfl

example : monthRange (some "2024-13") =
    Except.ok (some (⟨2025, 1, 1⟩, ⟨2025, 1, 31⟩)) := rfl

example : monthRange (some "garbage") = Except.error () := rfl

example : monthRange (some "all") = Except.ok none := rfl

example : twelveMonthsAgo ⟨2024, 2, 10⟩ = ⟨2023, 3, 1⟩ := by decide

example : specSinceDate ⟨2024, 2, 10⟩ = ⟨2023, 3, 1⟩ := by decide

example : twelveMonthsAgo ⟨2024, 5, 31⟩ = ⟨2023, 7, 1⟩ := by decide

example : specSinceDate ⟨2024, 5, 31⟩ = ⟨2023, 6, 1⟩ := by decide

example : objectIdOfString "U" = none := rfl

example : objectIdOfString "0123456789abcdef01234567"
    = some (BsonValue.oid "0123456789abcdef01234567") := rfl

example : (BsonValue.str "abc" == BsonValue.oid "abc") = false := rfl

example : monthlyData [] "U" ⟨2023, 3, 1⟩ = Except.error () := rfl

example : quoteField "Café \"Special\"" = "\"Café \"\"Special\"\"\"" := by decide

example : toFixed2 500 = "500.00" := by with_unfolding_all decide

example : toFixed2 (-5) = "-5.00" := by with_unfolding_all decide

example : toFixed2 (1/100) = "0.01" := by with_unfolding_all decide

example : fmtDate ⟨2024, 1, 15⟩ = "Jan 15, 2024" := by decide

example : exportCsvRoute [] "U" = ExportResult.redirect "No transactions to export." := by decide

-- ==================================================================
-- Helper lemmas
-- ==================================================================

theorem foldl_add_amount (l : List StoredTx) (init : ℚ) :
    l.foldl (fun sum t => sum + t.amount) init
      = init + (l.map (fun t => t.amount)).sum := by
  induction l generalizing init with
  | nil => simp
  | cons t ts ih => simp [List.foldl, ih]; ring

theorem matchesFilter_userId {f : Filter} {t : StoredTx}
    (h : matchesFilter f t = true) : t.userId = f.userId := by
  unfold matchesFilter at h
  simp only [Bool.and_eq_true, beq_iff_eq] at h
  exact h.1.1

theorem csvExport_concatRows (ts : List StoredTx) (init : String) :
    ts.foldl (fun csv t => csv ++ csvRow t) init = init ++ concatRows ts := by
  induction ts generalizing init with
  | nil => simp [concatRows, String.append_empty]
  | cons t ts ih => simp only [List.foldl, concatRows, ih, String.append_assoc]

theorem pad2_length (n : Nat) : (pad2 n).length = 2 := rfl

theorem digitChar_isDigit : ∀ k, k < 10 → (Nat.digitChar k).isDigit = true := by decide

theorem pad2_digits (n : Nat) (h : n < 100) : (pad2 n).data.all Char.isDigit = true := by
  have h1 : (Nat.digitChar (n / 10)).isDigit = true :=
    digitChar_isDigit _ (by omega)
  have h2 : (Nat.digitChar (n % 10)).isDigit = true :=
    digitChar_isDigit _ (by omega)
  simp [pad2, h1, h2]

theorem toFixed2_shape (a : ℚ) :
    ∃ ip f, toFixed2 a = ip ++ "." ++ f ∧ f.length = 2
      ∧ f.data.all Char.isDigit = true := by
  refine ⟨(if a < 0 then "-" else "")
      ++ toString ((Rat.floor ((if a < 0 then -a else a) * 100 + 1/2)).toNat / 100),
    pad2 ((Rat.floor ((if a < 0 then -a else a) * 100 + 1/2)).toNat % 100),
    ?_, pad2_length _, pad2_digits _ (Nat.mod_lt _ (by norm_num))⟩
  simp only [toFixed2, String.append_assoc]

theorem insertByDate_ne_nil (t : StoredTx) (l : List StoredTx) :
    insertByDate t l ≠ [] := by
  cases l with
  | nil => simp [insertByDate]
  | cons x xs =>
    simp only [insertByDate]
    by_cases h : dateLe t.date x.date = true
    · rw [if_pos h]; simp
    · rw [if_neg h]; simp

theorem sortByDateAsc_ne_nil (l : List StoredTx) (h : l ≠ []) :
    sortByDateAsc l ≠ [] := by
  cases l with
  | nil => exact absurd rfl h
  | cons x xs => exact insertByDate_ne_nil x (sortByDateAsc xs)

-- ==================================================================
-- Claim theorems
-- ==================================================================

/-- C1 (code bug): the program never returns the claimed two-entry
breakdown.  The aggregation `$match` casts the owner to an ObjectId
(`src/server.js` line 210) although the schema stores `userId` as a
String: for the claim's owner `"U"` the cast throws, so the dashboard
request fails with a server error instead of a breakdown; and even with an
owner id that does cast (`hexOwner`, all three transactions re-owned
accordingly) the ObjectId never BSON-equals the stored String, so the
breakdown is empty.  The spec-modelled pipeline (`specMonthlyBreakdown`)
confirms the two claimed entries, in ascending order, are exactly what the
intended aggregation would return on this store. -/
theorem c1_monthly_breakdown_never_produced :
    monthlyBreakdown txScenario1 "U" ⟨2024, 2, 10⟩ = Except.error ()
    ∧ monthlyBreakdown txScenario1Hex hexOwner ⟨2024, 2, 10⟩ = Except.ok []
    ∧ specMonthlyBreakdown txScenario1 "U" ⟨2024, 2, 10⟩ =
        [ { label := "Jan 2024", income := 500, expense := 200, net := 300,
            monthKey := "2024-01" }
        , { label := "Feb 2024", income := 0, expense := 50, net := -50,
            monthKey := "2024-02" } ] := by
  refine ⟨rfl, rfl, ?_⟩
  with_unfolding_all decide

/-- C2: `calculateSummary` returns the income and expense sums over the
transactions of the respective kind, returns `{0, 0, 0}` on the empty
sequence, and satisfies `income - expense = net` on every input.  (It is a
pure function of an immutable list in this embedding, so input mutation is
impossible by construction.) -/
theorem c2_summary_calculator (ts : List StoredTx) :
    (calculateSummary ts).income
        = ((ts.filter (fun t => t.type == "income")).map (fun t => t.amount)).sum
      ∧ (calculateSummary ts).expense
        = ((ts.filter (fun t => t.type == "expense")).map (fun t => t.amount)).sum
      ∧ (calculateSummary ts).income - (calculateSummary ts).expense
        = (calculateSummary ts).net
      ∧ calculateSummary [] = ⟨0, 0, 0⟩ := by
  refine ⟨?_, ?_, rfl, ?_⟩
  · simp [calculateSummary, foldl_add_amount]
  · simp [calculateSummary, foldl_add_amount]
  · simp [calculateSummary]

/-- C3 counterexample: the malformed month token `"2024-13"` is *not*
treated as `"all"`: the Filter Resolver produces a date constraint (JS
`Date` normalization turns month 13 of 2024 into January 2025), refuting
the claim that no date constraint arises for every malformed token. -/
theorem c3_counterexample :
    buildFilter "U" (some "2024-13") none =
      Except.ok { userId := "U",
                  dateRange := some (⟨2025, 1, 1⟩, ⟨2025, 1, 31⟩),
                  category := none }
    ∧ ¬ (buildFilter "U" (some "2024-13") none =
          Except.ok { userId := "U", dateRange := none, category := none }) := by
  refine ⟨rfl, fun h => ?_⟩
  have h2 := Except.ok.inj h
  simp at h2

/-- C3 amended: a numeric but out-of-range month token does not crash and is
not treated as `"all"`: `"2024-13"` produces the date constraint
January 1–31, 2025 via JS `Date` month normalization; a non-numeric token
produces invalid dates, so the request fails with a handled server error
(the route's `catch`), again not an "all" filter. -/
theorem c3_amended_malformed_month :
    buildFilter "U" (some "2024-13") none =
      Except.ok { userId := "U",
                  dateRange := some (⟨2025, 1, 1⟩, ⟨2025, 1, 31⟩),
                  category := none }
    ∧ buildFilter "U" (some "garbage") none = Except.error () := ⟨rfl, rfl⟩

/-- C5: the computed `sinceDate` is *not* always the first day of the month
11 months back.  `setMonth` runs before `setDate(1)`, so for
now = 2024-05-31 the day 31 overflows June 2023 into July 1 2023 and the
code returns 2023-07-01 where the contract (`specSinceDate`) requires
2023-06-01 — the trailing window then spans only 11 months.  (On days that
exist in the target month, e.g. now = 2024-02-10, the two agree.) -/
theorem c5_since_date_overflow :
    twelveMonthsAgo ⟨2024, 5, 31⟩ = ⟨2023, 7, 1⟩
    ∧ specSinceDate ⟨2024, 5, 31⟩ = ⟨2023, 6, 1⟩
    ∧ twelveMonthsAgo ⟨2024, 5, 31⟩ ≠ specSinceDate ⟨2024, 5, 31⟩
    ∧ twelveMonthsAgo ⟨2024, 2, 10⟩ = specSinceDate ⟨2024, 2, 10⟩ := by decide

/-- C4: the Filter Resolver adds no date constraint for an absent or
`"all"` month and the exact March 1–31 2024 range for `"2024-03"`; no
category constraint for an absent or `"all"` category and exact match
otherwise; and every produced predicate requires owner equality.  The last
conjunct shows that for an owner's transaction the March filter is exactly
the inclusive `[2024-03-01, 2024-03-31]` date-range test. -/
theorem c4_filter_resolver (u cat : String) (hcat : cat ≠ "all") :
    catConstraint (some cat) = some cat
    ∧ (∀ c, buildFilter u none c
        = Except.ok { userId := u, dateRange := none, category := catConstraint c })
    ∧ (∀ c, buildFilter u (some "all") c
        = Except.ok { userId := u, dateRange := none, category := catConstraint c })
    ∧ (∀ c, buildFilter u (some "2024-03") c
        = Except.ok { userId := u,
                      dateRange := some (⟨2024, 3, 1⟩, ⟨2024, 3, 31⟩),
                      category := catConstraint c })
    ∧ catConstraint none = none
    ∧ catConstraint (some "all") = none
    ∧ (∀ m c f, buildFilter u m c = Except.ok f → f.userId = u)
    ∧ (∀ f t, matchesFilter f t = true → t.userId = f.userId)
    ∧ (∀ t : StoredTx, t.userId = u →
        matchesFilter { userId := u,
                        dateRange := some (⟨2024, 3, 1⟩, ⟨2024, 3, 31⟩),
                        category := none } t
          = (dateLe ⟨2024, 3, 1⟩ t.date && dateLe t.date ⟨2024, 3, 31⟩)) := by
  refine ⟨by simp [catConstraint, hcat], fun c => rfl, fun c => rfl, fun c => rfl,
    rfl, rfl, ?_, fun f t h => matchesFilter_userId h, ?_⟩
  · intro m c f h
    unfold buildFilter at h
    cases hm : monthRange m with
    | error e => rw [hm] at h; exact Except.noConfusion h
    | ok dr =>
      rw [hm] at h
      injection h with h2
      rw [← h2]
  · intro t ht
    simp [matchesFilter, ht]

/-- C4 witness at a concrete category. -/
theorem c4_witness : catConstraint (some "Food") = some "Food" :=
  (c4_filter_resolver "U" "Food" (by decide)).1

/-- C6: `POST /update/:id` does **not** re-validate the schema invariants.
`findOneAndUpdate` runs with Mongoose's default `runValidators: false`, so
updating the valid transaction `txBeforeUpdate` with `amount = -5` and a
`type` outside the enum persists a record violating `amount > 0` and the
kind enum, even though the same document would be rejected by the create
path's validation (`saveTx`). -/
theorem c6_update_bypasses_validators :
    updateList [txBeforeUpdate] 7 "U" updInvalid
        = some [applyUpdate updInvalid txBeforeUpdate]
    ∧ (applyUpdate updInvalid txBeforeUpdate).amount = -5
    ∧ ¬ (0 < (applyUpdate updInvalid txBeforeUpdate).amount)
    ∧ ¬ ((applyUpdate updInvalid txBeforeUpdate).type = "income"
          ∨ (applyUpdate updInvalid txBeforeUpdate).type = "expense")
    ∧ validateDoc (docOfStored (applyUpdate updInvalid txBeforeUpdate)) = false
    ∧ validateDoc (docOfStored txBeforeUpdate) = true
    ∧ saveTx [] 8 (docOfStored (applyUpdate updInvalid txBeforeUpdate)) ⟨2024, 1, 16⟩
        = Except.error "ValidationError" := by
  refine ⟨by with_unfolding_all decide, by with_unfolding_all decide,
    by with_unfolding_all decide, by decide, by with_unfolding_all decide,
    by with_unfolding_all decide, by with_unfolding_all rfl⟩

/-- C7: ownership isolation.  A transaction of owner `A ≠ B` is never
returned by a find whose filter is scoped to `B`, never contributes to
`B`'s monthly aggregation, and survives unchanged every update and delete
scoped to `B`. -/
theorem c7_ownership_isolation (A B : String) (tA : StoredTx)
    (hA : tA.userId = A) (hAB : A ≠ B) :
    (∀ store f, f.userId = B → tA ∉ findTx store f)
    ∧ (∀ store since, monthlyData (tA :: store) B since = monthlyData store B since)
    ∧ (∀ store id u store2, updateList store id B u = some store2 →
        tA ∈ store → tA ∈ store2)
    ∧ (∀ store id store2, deleteList store id B = some store2 →
        tA ∈ store → tA ∈ store2) := by
  have hne : tA.userId ≠ B := by rw [hA]; exact hAB
  refine ⟨?_, ?_, ?_, ?_⟩
  · intro store f hf hmem
    exact hne (by rw [matchesFilter_userId (List.mem_filter.mp hmem).2, hf])
  · intro store since
    cases h : objectIdOfString B with
    | none => simp only [monthlyData, h]
    | some v =>
      have hv : v = BsonValue.oid B := by
        unfold objectIdOfString at h
        split at h
        · exact (Option.some.inj h).symm
        · exact Option.noConfusion h
      subst hv
      have hfalse : (BsonValue.str tA.userId == BsonValue.oid B && dateLe since tA.date)
          = false := rfl
      have hfil : List.filter
            (fun t => BsonValue.str t.userId == BsonValue.oid B && dateLe since t.date)
            (tA :: store)
          = List.filter
            (fun t => BsonValue.str t.userId == BsonValue.oid B && dateLe since t.date)
            store := by
        simp [List.filter_cons, hfalse]
      simp only [monthlyData, h]
      rw [hfil]
  · intro store
    induction store with
    | nil => intro id u store2 hupd _; simp [updateList] at hupd
    | cons t ts ih =>
      intro id u store2 hupd hmem
      simp only [updateList] at hupd
      by_cases hc : (t.id == id && t.userId == B) = true
      · rw [if_pos hc] at hupd
        injection hupd with h2
        rw [← h2]
        have hub : t.userId = B := by simp at hc; exact hc.2
        rcases List.mem_cons.mp hmem with h | h
        · exact absurd (h ▸ hub) hne
        · exact List.mem_cons_of_mem _ h
      · rw [if_neg hc] at hupd
        cases hm : updateList ts id B u with
        | none => rw [hm] at hupd; simp at hupd
        | some ts2 =>
          rw [hm] at hupd
          simp only [Option.map_some'] at hupd
          injection hupd with h2
          rw [← h2]
          rcases List.mem_cons.mp hmem with h | h
          · exact h ▸ List.mem_cons_self _ _
          · exact List.mem_cons_of_mem _ (ih id u ts2 hm h)
  · intro store
    induction store with
    | nil => intro id store2 hdel _; simp [deleteList] at hdel
    | cons t ts ih =>
      intro id store2 hdel hmem
      simp only [deleteList] at hdel
      by_cases hc : (t.id == id && t.userId == B) = true
      · rw [if_pos hc] at hdel
        injection hdel with h2
        rw [← h2]
        have hub : t.userId = B := by simp at hc; exact hc.2
        rcases List.mem_cons.mp hmem with h | h
        · exact absurd (h ▸ hub) hne
        · exact h
      · rw [if_neg hc] at hdel
        cases hm : deleteList ts id B with
        | none => rw [hm] at hdel; simp at hdel
        | some ts2 =>
          rw [hm] at hdel
          simp only [Option.map_some'] at hdel
          injection hdel with h2
          rw [← h2]
          rcases List.mem_cons.mp hmem with h | h
          · exact h ▸ List.mem_cons_self _ _
          · exact List.mem_cons_of_mem _ (ih id ts2 hm h)

/-- C7 witness: the concrete owner-`"A"` transaction is not returned by a
find scoped to owner `"B"`. -/
theorem c7_witness :
    txOwnerA ∉ findTx [txOwnerA] { userId := "B", dateRange := none, category := none } :=
  (c7_ownership_isolation "A" "B" txOwnerA rfl (by decide)).1 [txOwnerA]
    { userId := "B", dateRange := none, category := none } rfl

/-- C8: for every non-empty transaction list the CSV export is the literal
header line followed by one row per transaction; each row is the six
comma-joined fields with a trailing newline, with `category` and `note`
quote-wrapped and internal quotes doubled (witnessed on the claim's own
`Café "Special"` example) and the amount rendered with exactly two decimal
digits; and the export route serves exactly this text whenever the owner
has transactions. -/
theorem c8_csv_export (ts : List StoredTx) (_h : ts ≠ []) :
    csvExport ts = "Date,Type,Category,Amount,Note,Created At\n" ++ concatRows ts
    ∧ (∀ t ∈ ts, csvRow t
        = fmtDate t.date ++ "," ++ upperChars t.type ++ "," ++ quoteField t.category
          ++ "," ++ toFixed2 t.amount ++ "," ++ quoteField t.note ++ ","
          ++ fmtDate t.createdAt ++ "\n")
    ∧ quoteField "Café \"Special\"" = "\"Café \"\"Special\"\"\""
    ∧ upperChars "income" = "INCOME"
    ∧ (∀ t ∈ ts, ∃ ip f, toFixed2 t.amount = ip ++ "." ++ f ∧ f.length = 2
        ∧ f.data.all Char.isDigit = true)
    ∧ (∀ store u, store.filter (fun t => t.userId == u) ≠ [] →
        exportCsvRoute store u = ExportResult.csvFile
          (csvExport (sortByDateAsc (store.filter (fun t => t.userId == u))))) := by
  refine ⟨csvExport_concatRows ts _, fun t _ => rfl, by decide, by decide,
    fun t _ => toFixed2_shape t.amount, ?_⟩
  intro store u hnef
  have h2 := sortByDateAsc_ne_nil _ hnef
  cases hs : sortByDateAsc (store.filter (fun t => t.userId == u)) with
  | nil => exact absurd hs h2
  | cons a as => simp [exportCsvRoute, hs]

/-- C8 witness at a concrete one-element transaction list. -/
theorem c8_witness :
    csvExport [txOwnerA]
      = "Date,Type,Category,Amount,Note,Created At\n" ++ concatRows [txOwnerA] :=
  (c8_csv_export [txOwnerA] (by simp)).1

/-- C9: when the owner has zero stored transactions, the export route yields
the "nothing to export" redirect and in particular never a CSV file
(empty or otherwise). -/
theorem c9_empty_export (store : List StoredTx) (u : String)
    (h : store.filter (fun t => t.userId == u) = []) :
    exportCsvRoute store u = ExportResult.redirect "No transactions to export."
    ∧ ∀ s, exportCsvRoute store u ≠ ExportResult.csvFile s := by
  have h1 : exportCsvRoute store u
      = ExportResult.redirect "No transactions to export." := by
    simp [exportCsvRoute, h, sortByDateAsc]
  exact ⟨h1, fun s hc => ExportResult.noConfusion (h1 ▸ hc)⟩

/-- C9 witness: a store holding only another owner's transaction. -/
theorem c9_witness :
    exportCsvRoute [txOwnerA] "B" = ExportResult.redirect "No transactions to export." :=
  (c9_empty_export [txOwnerA] "B" (by decide)).1

/-- C10 (implicit): constructing a transaction with no owner supplied does
not fail validation — the schema default fills `userId` with
`"default_user"`, which satisfies the `required` check, so the document
validates whenever the remaining fields are valid. -/
theorem c10_default_owner (ty cat : String) (a : ℚ) (n : Option String) (d : CalDate)
    (hty : ty = "income" ∨ ty = "expense") (hcat : cat ≠ "") (ha : (1 : ℚ)/100 ≤ a) :
    (buildDoc { userId := none, type := some ty, category := some cat,
                amount := some a, note := n, date := some d }).userId
        = some "default_user"
    ∧ validateDoc (buildDoc { userId := none, type := some ty,
                              category := some cat, amount := some a,
                              note := n, date := some d }) = true := by
  constructor
  · rfl
  · rcases hty with h | h <;>
      simp [buildDoc, validateDoc, h, hcat, ha] <;> linarith

/-- C10 witness at concrete valid fields. -/
theorem c10_witness :
    validateDoc (buildDoc { userId := none, type := some "income",
                            category := some "Food", amount := some 500,
                            note := none, date := some ⟨2024, 1, 1⟩ }) = true :=
  (c10_default_owner "income" "Food" 500 none ⟨2024, 1, 1⟩ (Or.inl rfl) (by decide)
    (by with_unfolding_all decide)).2

end FinTrack
